import Mathlib

/-!
Verification of the environment bootstrap module of the lore repository
(src/lore/env.py).  The Python module is shallowly embedded: the
filesystem is an oracle mapping a path to the contents of the file
stored there (or none when no file exists), realpath is an arbitrary
function parameter, and process-terminating or process-replacing
effects (sys.exit, os.execv) are represented by explicit outcome values.
-/

namespace LoreEnv

/-- The filesystem: maps an absolute path to the contents of the file at
that path, or none when nothing exists there. -/
def FS : Type := String → Option String

/-- os.path.exists, restricted to the file oracle. -/
def fsExists (fs : FS) (p : String) : Bool :=
  (fs p).isSome

/-- Python truthiness of an optional string: None and the empty string
are falsy, every other string is truthy. -/
def truthy : Option String → Bool
  | none => false
  | some s => decide (s ≠ "")

/-- Python whitespace characters recognised by str.strip (ASCII part). -/
def pySpace (c : Char) : Bool :=
  c = ' ' || c = '\t' || c = '\n' || c = '\r' || c = '\x0b' || c = '\x0c'

/-- str.strip: removes leading and trailing whitespace. -/
def pyStrip (s : String) : String :=
  String.mk (((s.toList.dropWhile pySpace).reverse.dropWhile pySpace).reverse)

/-- Number of occurrences of the path separator in a path:
str.count of os.path.sep on a POSIX system. -/
def countSep (p : String) : Nat :=
  p.toList.countP (fun c => c = '/')

/-- os.path.basename for POSIX paths: everything after the last slash. -/
def basename (p : String) : String :=
  String.mk ((p.toList.reverse.takeWhile (fun c => c ≠ '/')).reverse)

/-- os.path.dirname for POSIX paths, on character lists: the segment up
to the last slash, with trailing slashes stripped unless the head is
made of slashes only. -/
def dirnameAux (p : List Char) : List Char :=
  let head := (p.reverse.dropWhile (fun c => c ≠ '/')).reverse
  if head ≠ [] ∧ ¬ (head.all (fun c => c = '/')) then
    (head.reverse.dropWhile (fun c => c = '/')).reverse
  else
    head

/-- os.path.dirname for POSIX paths. -/
def dirname (p : String) : String :=
  String.mk (dirnameAux p.toList)

/-- Whether a path begins with the POSIX separator. -/
def headIsSlash (p : String) : Bool :=
  match p.toList with
  | [] => false
  | c :: _ => c = '/'

/-- Whether a path ends with the POSIX separator. -/
def lastIsSlash (p : String) : Bool :=
  match p.toList.reverse with
  | [] => false
  | c :: _ => c = '/'

/-- Structural string comparison for a leading piece, on lists. -/
def leadsWith (pat s : String) : Bool :=
  List.isPrefixOf pat.toList s.toList

/-- os.path.join for two POSIX path components. -/
def joinPath (a b : String) : String :=
  if headIsSlash b then b
  else if a = "" ∨ lastIsSlash a then a ++ b
  else a ++ "/" ++ b

/-- re.sub applied with the anchored pattern python- : removes one
leading python- tag when present. -/
def stripPythonTag (v : String) : String :=
  if leadsWith "python-" v then String.mk (v.toList.drop 7) else v

/-- read_version(path) from src/lore/env.py: returns None when the file
is absent; otherwise strips the contents, and when the result is
truthy removes a leading python- tag.  A file whose stripped contents
are empty yields the empty string, not None. -/
def read_version (fs : FS) (path : String) : Option String :=
  match fs path with
  | none => none
  | some content =>
    let version := pyStrip content
    if version ≠ "" then some (stripPythonTag version) else some version

/-- launched() from src/lore/env.py: false when the global PREFIX is
falsy, otherwise compares the real paths of sys.prefix and PREFIX. -/
def launched (realpath : String → String) (sysPfx : String) (pfx : Option String) : Bool :=
  if truthy pfx then decide (realpath sysPfx = realpath (pfx.getD "")) else false

/-- exists() from src/lore/env.py: true exactly when the global
PYTHON_VERSION is not None. -/
def envExists (pythonVersion : Option String) : Bool :=
  pythonVersion.isSome

/-- C1: launched() returns False whenever PREFIX is unset (None or
empty), and otherwise returns True if and only if the real path of
sys.prefix equals the real path of PREFIX. -/
theorem launched_correct (realpath : String → String) (sysPfx : String) :
    launched realpath sysPfx none = false ∧
    launched realpath sysPfx (some "") = false ∧
    ∀ p : String, p ≠ "" →
      (launched realpath sysPfx (some p) = true ↔ realpath sysPfx = realpath p) := by
  refine ⟨rfl, rfl, fun p hp => ?_⟩
  simp [launched, truthy, hp]

/-- Concrete instantiation of launched_correct. -/
theorem launched_correct_witness :
    launched (fun s => s) "/venv" (some "/venv") = true :=
  ((launched_correct (fun s => s) "/venv").2.2 "/venv" (by decide)).mpr rfl

/-- One component of PYTHON_VERSION_INFO: a Python version component is
int(i) when the piece is made of digits and the piece itself otherwise. -/
inductive VComp where
  | int : Nat → VComp
  | str : String → VComp
deriving DecidableEq, Repr

/-- str.isdigit: nonempty and every character a digit. -/
def pyIsDigit (s : String) : Bool :=
  decide (s ≠ "") && s.toList.all Char.isDigit

/-- Numeric value of a digit string, as int() computes it. -/
def digitsVal (s : String) : Nat :=
  s.toList.foldl (fun a c => a * 10 + (c.toNat - 48)) 0

/-- One piece of the dot-split version string, converted as the source
does: int(i) if i.isdigit() else i. -/
def parseComp (s : String) : VComp :=
  if pyIsDigit s then .int (digitsVal s) else .str s

/-- str.split on the dot character, accumulator-based. -/
def splitDotsAux : List Char → List Char → List String
  | [], acc => [String.mk acc.reverse]
  | '.' :: rest, acc => String.mk acc.reverse :: splitDotsAux rest []
  | c :: rest, acc => splitDotsAux rest (c :: acc)

/-- PYTHON_VERSION.split of the dot separator. -/
def splitDots (v : String) : List String :=
  splitDotsAux v.toList []

/-- PYTHON_VERSION_INFO as computed in set_python_version: the version
string split on dots, each piece converted by parseComp. -/
def versionComps (v : String) : List VComp :=
  (splitDots v).map parseComp

/-- str() of a version component. -/
def compStr : VComp → String
  | .int n => toString n
  | .str s => s

/-- Whether a function returns normally or terminates the process via
sys.exit. -/
inductive COutcome where
  | normal
  | exit
deriving DecidableEq, Repr

/-- check_version() from src/lore/env.py: compares
sys.version_info[0:3] with PYTHON_VERSION_INFO[0:3] and exits on any
difference.  The first argument is the numeric sys.version_info tuple. -/
def check_version (sysVer : List Nat) (pvInfo : List VComp) : COutcome :=
  if (sysVer.take 3).map VComp.int = pvInfo.take 3 then .normal else .exit

/-- C5: check_version() returns normally if and only if the first three
components of the running interpreter version equal the first three
components of PYTHON_VERSION_INFO; with a required version of fewer
than three components the compared tuples have different lengths, so it
always exits. -/
theorem check_version_correct (sysVer : List Nat) (pvInfo : List VComp) :
    (check_version sysVer pvInfo = .normal ↔
      (sysVer.take 3).map VComp.int = pvInfo.take 3) ∧
    (3 ≤ sysVer.length → pvInfo.length < 3 → check_version sysVer pvInfo = .exit) := by
  constructor
  · simp [check_version]
  · intro hs hp
    have hlen : ¬ ((sysVer.take 3).map VComp.int = pvInfo.take 3) := by
      intro h
      have hl := congrArg List.length h
      simp only [List.length_map, List.length_take] at hl
      omega
    simp only [check_version, if_neg hlen]

/-- Concrete instantiation of check_version_correct: a 3.6 runtime
specification never matches the interpreter 3.6.4. -/
theorem check_version_correct_witness :
    check_version [3, 6, 4, 0, 0] (versionComps "3.6") = .exit :=
  (check_version_correct [3, 6, 4, 0, 0] (versionComps "3.6")).2
    (by decide) (by decide)

/-- reboot(*args) from src/lore/env.py: builds the new argument vector
sys.argv + args, rewrites its head to BIN_PYTHON when it equals python
or is empty, else to BIN_LORE when the basename of sys.argv[0] is lore
or lore.exe, and hands the vector to os.execv.  Returns none when the
indexing of an empty vector would raise. -/
def reboot (argv extra : List String) (binPython binLore : String) : Option (List String) :=
  match argv ++ extra with
  | [] => none
  | a0 :: rest =>
    if a0 = "python" ∨ a0 = "" then some (binPython :: rest)
    else
      match argv with
      | [] => none
      | s0 :: _ =>
        if basename s0 = "lore" ∨ basename s0 = "lore.exe" then
          some (binLore :: rest)
        else
          some (a0 :: rest)

/-- C7: with a nonempty sys.argv, reboot passes sys.argv extended with
the extra arguments to os.execv, rewriting only the head: to BIN_PYTHON
when argv[0] is python or empty, to BIN_LORE when the basename of
argv[0] is lore or lore.exe, and leaving it alone otherwise; the
remaining arguments pass through unchanged. -/
theorem reboot_correct (a0 : String) (rest extra : List String)
    (binPython binLore : String) :
    reboot (a0 :: rest) extra binPython binLore =
      some ((if a0 = "python" ∨ a0 = "" then binPython
             else if basename a0 = "lore" ∨ basename a0 = "lore.exe" then binLore
             else a0) :: (rest ++ extra)) := by
  by_cases h1 : a0 = "python" ∨ a0 = ""
  · simp [reboot, h1]
  · by_cases h2 : basename a0 = "lore" ∨ basename a0 = "lore.exe"
    · simp [reboot, h1, h2]
    · simp [reboot, h1, h2]

/-- The possible results of validate(). -/
inductive ValidateOutcome where
  | exitNoModule
  | exitNoEnv
  | normal
deriving DecidableEq, Repr

/-- validate() from src/lore/env.py: exits when ROOT/APP/__init__.py is
absent, then exits when exists() is false, and otherwise returns. -/
def validate (fs : FS) (root app : String) (pythonVersion : Option String) : ValidateOutcome :=
  if ¬ fsExists fs (joinPath (joinPath root app) "__init__.py") then .exitNoModule
  else if envExists pythonVersion then .normal
  else .exitNoEnv

/-- C4: validate() exits when the application module file is missing or
when no lore environment exists (PYTHON_VERSION is None, that is
exists() is false); when the module file exists and PYTHON_VERSION is
not None it returns normally. -/
theorem validate_correct (fs : FS) (root app : String) (pythonVersion : Option String) :
    (validate fs root app pythonVersion = .normal ↔
      fsExists fs (joinPath (joinPath root app) "__init__.py") = true ∧
      pythonVersion ≠ none) ∧
    (fsExists fs (joinPath (joinPath root app) "__init__.py") = false →
      validate fs root app pythonVersion = .exitNoModule) ∧
    (fsExists fs (joinPath (joinPath root app) "__init__.py") = true →
      pythonVersion = none →
      validate fs root app pythonVersion = .exitNoEnv) := by
  refine ⟨?_, ?_, ?_⟩
  · constructor
    · intro h
      by_cases hm : fsExists fs (joinPath (joinPath root app) "__init__.py") = true
      · refine ⟨hm, ?_⟩
        intro hnone
        simp [validate, hm, envExists, hnone] at h
      · simp [validate, hm] at h
    · rintro ⟨hm, hv⟩
      have : envExists pythonVersion = true := by
        cases pythonVersion with
        | none => exact absurd rfl hv
        | some v => rfl
      simp [validate, hm, this]
  · intro hm
    simp [validate, hm]
  · intro hm hv
    simp [validate, hm, envExists, hv]

/-- Concrete instantiation of validate_correct: a missing module file
makes validate() exit. -/
theorem validate_correct_witness :
    validate (fun _ => none) "/app" "app" (some "3.6.4") = .exitNoModule :=
  (validate_correct (fun _ => none) "/app" "app" (some "3.6.4")).2.1 rfl

/-- file.readlines(): splits after each newline, keeping the newline
characters, with no empty final line. -/
def readlinesAux : List Char → List Char → List String
  | [], [] => []
  | [], acc => [String.mk acc.reverse]
  | '\n' :: rest, acc => String.mk (acc.reverse ++ ['\n']) :: readlinesAux rest []
  | c :: rest, acc => readlinesAux rest (c :: acc)

/-- readlines of a whole file contents. -/
def pyReadlines (content : String) : List String :=
  readlinesAux content.toList []

/-- Whether a line begins with one of the version-control scheme names
of the requirement filter. -/
def vcsHead (l : String) : Bool :=
  leadsWith "git" l || leadsWith "svn" l || leadsWith "hg" l || leadsWith "bzr" l

/-- re.match of the pattern (-e )?(git|svn|hg|bzr).* against a line:
an optional editable flag followed by a version-control scheme name. -/
def isVcs (l : String) : Bool :=
  vcsHead l || (leadsWith "-e " l && vcsHead (String.mk (l.toList.drop 3)))

/-- The possible results of check_requirements().  Whether the
installed distribution set satisfies the non-VCS requirement lines is
abstracted into the oracle unsat, standing for pkg_resources.require
raising a resolution error. -/
inductive ReqOutcome where
  | exitMissingFile
  | exitUnsatisfied
  | installAndReboot : String → ReqOutcome
  | normal
deriving DecidableEq, Repr

/-- list(set(dependencies) - set(vcs)): the distinct requirement lines
that do not match the version-control pattern. -/
def nonVcsDeps (content : String) : List String :=
  ((pyReadlines content).filter (fun d => !(isVcs d))).dedup

/-- check_requirements() from src/lore/env.py: exits when
requirements.txt is absent; otherwise removes version-control lines,
deduplicates, and on an unsatisfied requirement either exits (when
--env-checked is already among the arguments) or installs and reboots
with --env-checked appended. -/
def check_requirements (fs : FS) (reqPath : String) (unsat : List String → Bool)
    (argv : List String) : ReqOutcome :=
  match fs reqPath with
  | none => .exitMissingFile
  | some content =>
    if unsat (nonVcsDeps content) then
      if argv.contains "--env-checked" then .exitUnsatisfied
      else .installAndReboot "--env-checked"
    else .normal

/-- C6: check_requirements() exits when requirements.txt is missing;
when it exists, lines matching an optional editable flag followed by
git, svn, hg or bzr are excluded from the verified set, and on an
unsatisfied requirement it exits when --env-checked is among the
process arguments and installs then reboots with --env-checked
otherwise. -/
theorem check_requirements_correct (fs : FS) (reqPath : String)
    (unsat : List String → Bool) (argv : List String) :
    (fs reqPath = none → check_requirements fs reqPath unsat argv = .exitMissingFile) ∧
    (∀ content, fs reqPath = some content →
      (∀ d, d ∈ nonVcsDeps content ↔
        d ∈ pyReadlines content ∧ isVcs d = false) ∧
      (unsat (nonVcsDeps content) = true →
        ((argv.contains "--env-checked" = true →
            check_requirements fs reqPath unsat argv = .exitUnsatisfied) ∧
         (argv.contains "--env-checked" = false →
            check_requirements fs reqPath unsat argv = .installAndReboot "--env-checked"))) ∧
      (unsat (nonVcsDeps content) = false →
        check_requirements fs reqPath unsat argv = .normal)) := by
  constructor
  · intro h
    simp [check_requirements, h]
  · intro content hc
    refine ⟨?_, ?_, ?_⟩
    · intro d
      simp [nonVcsDeps, List.mem_dedup, List.mem_filter]
    · intro hu
      constructor
      · intro ha
        simp at ha
        simp [check_requirements, hc, hu, ha]
      · intro ha
        simp at ha
        simp [check_requirements, hc, hu, ha]
    · intro hu
      simp [check_requirements, hc, hu]

/-- Concrete instantiation of check_requirements_correct: an absent
requirements.txt makes check_requirements() exit. -/
theorem check_requirements_correct_witness :
    check_requirements (fun _ => none) "/app/requirements.txt" (fun _ => true) [] =
      .exitMissingFile :=
  (check_requirements_correct (fun _ => none) "/app/requirements.txt"
    (fun _ => true) []).1 rfl

/-- The module globals assigned by set_python_version.  A none field
models a global that still holds its initial None (or, for pvInfo, the
initial empty list). -/
structure EnvState where
  pythonVersion : Option String
  pvInfo : List VComp
  pfx : Option String
  binPython : Option String
  binLore : Option String
  binJupyter : Option String
  binFlask : Option String
  flaskApp : Option String
deriving DecidableEq, Repr

/-- Whether an Except value is an uncaught exception. -/
def isExceptError {α β : Type} : Except α β → Bool
  | .error _ => true
  | .ok _ => false

/-- str.lower restricted to ASCII characters. -/
def pyLower (s : String) : String :=
  String.mk (s.toList.map Char.toLower)

/-- set_python_version(python_version) from src/lore/env.py.  Assigns
PYTHON_VERSION always; when it is truthy, also assigns
PYTHON_VERSION_INFO, PREFIX and the executable paths.  An IndexError
raised while indexing PYTHON_VERSION_INFO is an error value carrying
the globals assigned before the raise. -/
def set_python_version (fs : FS) (realpath : String → String) (sysPfx : String)
    (pyenv root app : String) (windows : Bool) (st : EnvState) (v : Option String) :
    Except EnvState EnvState :=
  let st1 := { st with pythonVersion := v }
  if truthy v then
    let ver := v.getD ""
    let info := versionComps ver
    let st2 := { st1 with pvInfo := info }
    if windows then
      let pfx := joinPath (pyLower root) ".python"
      let binVenv := joinPath pfx "scripts"
      .ok { st2 with
        pfx := some pfx
        binPython := some (joinPath binVenv "python.exe")
        binLore := some (joinPath binVenv "lore.exe")
        binJupyter := some (joinPath binVenv "jupyter.exe")
        binFlask := some (joinPath binVenv "flask.exe")
        flaskApp := some (joinPath (joinPath (joinPath (joinPath
          (joinPath pfx "lib") "site-packages") "lore") "www") "__init__.py") }
    else
      let pfx :=
        if pyenv ≠ "" then
          joinPath (joinPath (joinPath (joinPath pyenv "versions") ver) "envs") app
        else realpath sysPfx
      let st3 := { st2 with pfx := some pfx }
      match info.get? 0 with
      | none => .error st3
      | some c0 =>
        let major := "python" ++ compStr c0
        match info.get? 1 with
        | none => .error st3
        | some c1 =>
          let minor := major ++ "." ++ compStr c1
          match info.get? 2 with
          | none => .error st3
          | some c2 =>
            let patch := minor ++ "." ++ compStr c2
            let bp0 := joinPath (joinPath pfx "bin") patch
            let bp1 := if fsExists fs bp0 then bp0 else joinPath (joinPath pfx "bin") minor
            let bp2 := if fsExists fs bp1 then bp1 else joinPath (joinPath pfx "bin") major
            let bp3 := if fsExists fs bp2 then bp2 else joinPath (joinPath pfx "bin") "python"
            .ok { st3 with
              binPython := some bp3
              binLore := some (joinPath (joinPath pfx "bin") "lore")
              binJupyter := some (joinPath (joinPath pfx "bin") "jupyter")
              binFlask := some (joinPath (joinPath pfx "bin") "flask")
              flaskApp := some (joinPath (joinPath (joinPath (joinPath
                (joinPath (joinPath pfx "lib") minor) "site-packages") "lore") "www") "__init__.py") }
  else
    .ok st1

/-- The first candidate path that exists on disk, or the fallback when
none of the candidates does. -/
def firstExisting (fs : FS) (cands : List String) (fallback : String) : String :=
  match cands.find? (fun p => fsExists fs p) with
  | some p => p
  | none => fallback

/-- The sequential reassignment chain of BIN_PYTHON in
set_python_version, as a standalone function of the three candidate
paths and the fallback. -/
def chainPick (fs : FS) (c0 c1 c2 fb : String) : String :=
  let b1 := if fsExists fs c0 then c0 else c1
  let b2 := if fsExists fs b1 then b1 else c2
  if fsExists fs b2 then b2 else fb

/-- The reassignment chain picks the first existing candidate. -/
theorem chainPick_eq_firstExisting (fs : FS) (c0 c1 c2 fb : String) :
    chainPick fs c0 c1 c2 fb = firstExisting fs [c0, c1, c2] fb := by
  by_cases e0 : fsExists fs c0 = true <;>
    by_cases e1 : fsExists fs c1 = true <;>
      by_cases e2 : fsExists fs c2 = true <;>
        simp [chainPick, firstExisting, List.find?, e0, e1, e2]

/-- C8: on a non-Windows platform, set_python_version with a non-empty
three-component version string sets PREFIX to
PYENV/versions/version/envs/APP when PYENV is set and to the real path
of sys.prefix otherwise, and sets BIN_PYTHON to the first existing
executable among bin/pythonX.Y.Z, bin/pythonX.Y and bin/pythonX under
PREFIX, falling back to bin/python; with a falsy version (None or the
empty string) none of PREFIX, BIN_PYTHON, BIN_LORE, BIN_JUPYTER,
BIN_FLASK and FLASK_APP is assigned. -/
theorem set_python_version_correct (fs : FS) (realpath : String → String)
    (sysPfx pyenv root app : String) (st : EnvState) :
    (∀ ver p0 p1 p2 : String, ver ≠ "" → splitDots ver = [p0, p1, p2] →
      ∀ pfxVal : String,
        pfxVal = (if pyenv ≠ "" then
            joinPath (joinPath (joinPath (joinPath pyenv "versions") ver) "envs") app
          else realpath sysPfx) →
        ∃ st2 : EnvState,
          set_python_version fs realpath sysPfx pyenv root app false st (some ver) = .ok st2 ∧
          st2.pythonVersion = some ver ∧
          st2.pfx = some pfxVal ∧
          st2.binPython = some (firstExisting fs
            [joinPath (joinPath pfxVal "bin")
              ("python" ++ compStr (parseComp p0) ++ "." ++ compStr (parseComp p1)
                ++ "." ++ compStr (parseComp p2)),
             joinPath (joinPath pfxVal "bin")
              ("python" ++ compStr (parseComp p0) ++ "." ++ compStr (parseComp p1)),
             joinPath (joinPath pfxVal "bin") ("python" ++ compStr (parseComp p0))]
            (joinPath (joinPath pfxVal "bin") "python"))) ∧
    (∀ v0 : Option String, truthy v0 = false →
      ∃ st2 : EnvState,
        set_python_version fs realpath sysPfx pyenv root app false st v0 = .ok st2 ∧
        st2.pythonVersion = v0 ∧
        st2.pfx = st.pfx ∧
        st2.binPython = st.binPython ∧
        st2.binLore = st.binLore ∧
        st2.binJupyter = st.binJupyter ∧
        st2.binFlask = st.binFlask ∧
        st2.flaskApp = st.flaskApp) := by
  constructor
  · intro ver p0 p1 p2 hne hsplit pfxVal hpfx
    have htr : truthy (some ver) = true := by simp [truthy, hne]
    have hinfo : versionComps ver = [parseComp p0, parseComp p1, parseComp p2] := by
      simp [versionComps, hsplit]
    have hmain : set_python_version fs realpath sysPfx pyenv root app false st (some ver) =
        .ok { pythonVersion := some ver
              pvInfo := [parseComp p0, parseComp p1, parseComp p2]
              pfx := some pfxVal
              binPython := some (chainPick fs
                (joinPath (joinPath pfxVal "bin")
                  ("python" ++ compStr (parseComp p0) ++ "." ++ compStr (parseComp p1)
                    ++ "." ++ compStr (parseComp p2)))
                (joinPath (joinPath pfxVal "bin")
                  ("python" ++ compStr (parseComp p0) ++ "." ++ compStr (parseComp p1)))
                (joinPath (joinPath pfxVal "bin") ("python" ++ compStr (parseComp p0)))
                (joinPath (joinPath pfxVal "bin") "python"))
              binLore := some (joinPath (joinPath pfxVal "bin") "lore")
              binJupyter := some (joinPath (joinPath pfxVal "bin") "jupyter")
              binFlask := some (joinPath (joinPath pfxVal "bin") "flask")
              flaskApp := some (joinPath (joinPath (joinPath (joinPath
                (joinPath (joinPath pfxVal "lib")
                  ("python" ++ compStr (parseComp p0) ++ "." ++ compStr (parseComp p1)))
                  "site-packages") "lore") "www") "__init__.py") } := by
      simp only [set_python_version, htr, if_true, Option.getD_some, hinfo, ← hpfx]
      rfl
    refine ⟨_, hmain, rfl, rfl, ?_⟩
    show some (chainPick fs _ _ _ _) = some (firstExisting fs _ _)
    rw [chainPick_eq_firstExisting]
  · intro v0 hv0
    exact ⟨{ st with pythonVersion := v0 },
      by simp [set_python_version, hv0], rfl, rfl, rfl, rfl, rfl, rfl, rfl⟩

/-- Concrete instantiation of set_python_version_correct: without
pyenv, PREFIX is the real path of sys.prefix and BIN_PYTHON falls back
from the absent patch-level executable to the existing minor one. -/
theorem set_python_version_correct_witness :
    ∃ st2 : EnvState,
      set_python_version (fun p => if p = "/venv/bin/python3.6" then some "" else none)
        (fun s => s) "/venv" "" "/r" "myapp" false
        ⟨none, [], none, none, none, none, none, none⟩ (some "3.6.4") = .ok st2 ∧
      st2.pythonVersion = some "3.6.4" ∧
      st2.pfx = some "/venv" ∧
      st2.binPython = some (firstExisting
        (fun p => if p = "/venv/bin/python3.6" then some "" else none)
        [joinPath (joinPath "/venv" "bin")
          ("python" ++ compStr (parseComp "3") ++ "." ++ compStr (parseComp "6")
            ++ "." ++ compStr (parseComp "4")),
         joinPath (joinPath "/venv" "bin")
          ("python" ++ compStr (parseComp "3") ++ "." ++ compStr (parseComp "6")),
         joinPath (joinPath "/venv" "bin") ("python" ++ compStr (parseComp "3"))]
        (joinPath (joinPath "/venv" "bin") "python")) :=
  (set_python_version_correct (fun p => if p = "/venv/bin/python3.6" then some "" else none)
    (fun s => s) "/venv" "" "/r" "myapp"
    ⟨none, [], none, none, none, none, none, none⟩).1 "3.6.4" "3" "6" "4"
    (by decide) (by decide) "/venv" (by decide)

/-- C9: on a non-Windows platform, a non-empty version string with
fewer than three dot-separated components makes set_python_version
raise an IndexError while indexing PYTHON_VERSION_INFO beyond its last
component. -/
theorem set_python_version_short_version_raises (fs : FS) (realpath : String → String)
    (sysPfx pyenv root app : String) (st : EnvState) (ver : String)
    (hne : ver ≠ "") (hlt : (splitDots ver).length < 3) :
    isExceptError (set_python_version fs realpath sysPfx pyenv root app false st (some ver)) =
      true := by
  have htr : truthy (some ver) = true := by simp [truthy, hne]
  rcases h : splitDots ver with _ | ⟨p0, _ | ⟨p1, _ | ⟨p2, rest⟩⟩⟩
  · have hinfo : versionComps ver = [] := by simp [versionComps, h]
    simp only [set_python_version, htr, if_true, Option.getD_some, hinfo]
    rfl
  · have hinfo : versionComps ver = [parseComp p0] := by simp [versionComps, h]
    simp only [set_python_version, htr, if_true, Option.getD_some, hinfo]
    rfl
  · have hinfo : versionComps ver = [parseComp p0, parseComp p1] := by
      simp [versionComps, h]
    simp only [set_python_version, htr, if_true, Option.getD_some, hinfo]
    rfl
  · rw [h] at hlt
    simp at hlt
    omega

/-- Concrete instantiation of set_python_version_short_version_raises
at the two-component version 3.6. -/
theorem set_python_version_short_version_raises_witness :
    isExceptError (set_python_version (fun _ => none) (fun s => s) "/venv" "" "/r" "myapp"
      false ⟨none, [], none, none, none, none, none, none⟩ (some "3.6")) = true :=
  set_python_version_short_version_raises (fun _ => none) (fun s => s) "/venv" "" "/r"
    "myapp" ⟨none, [], none, none, none, none, none, none⟩ "3.6" (by decide) (by decide)

/-- The observable effects of launch(), in order: the version check
against the virtualenv interpreter, a change of working directory, an
exiting error, the warning plus install of a missing virtualenv, or
the process replacement through reboot. -/
inductive Act where
  | checkVersion
  | chdir : String → Act
  | exitVersionMismatch
  | exitMissingVenv
  | warnAndInstall
  | reboot : String → Act
deriving DecidableEq, Repr

/-- launch() from src/lore/env.py, as the sequence of effects it
performs: when launched() holds it runs check_version() (which exits
on a mismatch) and then changes directory to ROOT and returns; when
launched() fails it reboots with --env-launched appended, except that
with BIN_LORE missing it first installs, or exits when --launched is
already among the arguments. -/
def launch (fs : FS) (realpath : String → String) (sysPfx : String) (pfx : Option String)
    (sysVer : List Nat) (pvInfo : List VComp) (root binLore : String)
    (argv : List String) : List Act :=
  if launched realpath sysPfx pfx then
    match check_version sysVer pvInfo with
    | .normal => [.checkVersion, .chdir root]
    | .exit => [.checkVersion, .exitVersionMismatch]
  else if fsExists fs binLore then
    [.reboot "--env-launched"]
  else if argv.contains "--launched" then
    [.exitMissingVenv]
  else
    [.warnAndInstall, .reboot "--env-launched"]

/-- Counterexample to C2 as stated: when the process is not launched,
the lore executable of the virtualenv is missing and --launched is
already among the arguments, launch() exits instead of ending in
reboot. -/
theorem launch_claim_counterexample :
    launched (fun s => s) "/usr" (some "/venv") = false ∧
    launch (fun _ => none) (fun s => s) "/usr" (some "/venv") [3, 6, 4] []
      "/app" "/venv/bin/lore" ["/venv/bin/lore", "--launched"] = [.exitMissingVenv] ∧
    (launch (fun _ => none) (fun s => s) "/usr" (some "/venv") [3, 6, 4] []
      "/app" "/venv/bin/lore" ["/venv/bin/lore", "--launched"]).getLast? ≠
      some (.reboot "--env-launched") := by
  refine ⟨by decide, by decide, by decide⟩

/-- C2 (amended): when launched() holds, launch() runs the interpreter
version check and, when the check returns, changes directory to ROOT
and returns without re-executing (a mismatch exits during the check);
when launched() fails, launch() ends by replacing the process through
reboot with --env-launched, unless BIN_LORE is missing while
--launched is among the arguments, in which case it exits. -/
theorem launch_correct (fs : FS) (realpath : String → String) (sysPfx : String)
    (pfx : Option String) (sysVer : List Nat) (pvInfo : List VComp)
    (root binLore : String) (argv : List String) :
    (launched realpath sysPfx pfx = true →
      (check_version sysVer pvInfo = .normal →
        launch fs realpath sysPfx pfx sysVer pvInfo root binLore argv =
          [.checkVersion, .chdir root]) ∧
      (check_version sysVer pvInfo = .exit →
        launch fs realpath sysPfx pfx sysVer pvInfo root binLore argv =
          [.checkVersion, .exitVersionMismatch])) ∧
    (launched realpath sysPfx pfx = false →
      (¬ (fsExists fs binLore = false ∧ argv.contains "--launched" = true) →
        (launch fs realpath sysPfx pfx sysVer pvInfo root binLore argv).getLast? =
          some (.reboot "--env-launched")) ∧
      (fsExists fs binLore = false → argv.contains "--launched" = true →
        launch fs realpath sysPfx pfx sysVer pvInfo root binLore argv =
          [.exitMissingVenv])) := by
  constructor
  · intro hl
    constructor
    · intro hv
      simp [launch, hl, hv]
    · intro hv
      simp [launch, hl, hv]
  · intro hl
    constructor
    · intro hno
      by_cases hb : fsExists fs binLore = true
      · simp [launch, hl, hb]
      · have hb0 : fsExists fs binLore = false := by
          cases h : fsExists fs binLore
          · rfl
          · exact absurd h hb
        have ha : ¬ (argv.contains "--launched" = true) := fun h => hno ⟨hb0, h⟩
        have ha0 : argv.contains "--launched" = false := by
          cases h : argv.contains "--launched"
          · rfl
          · exact absurd h ha
        simp at ha0
        simp [launch, hl, hb0, ha0]
    · intro hb ha
      simp at ha
      simp [launch, hl, hb, ha]

/-- Concrete instantiation of launch_correct: in a launched process
with a matching interpreter, launch() checks the version and changes
directory to the root. -/
theorem launch_correct_witness :
    launch (fun _ => none) (fun s => s) "/venv" (some "/venv") [3, 6, 4]
      [.int 3, .int 6, .int 4] "/app" "/venv/bin/lore" ["lore"] =
      [.checkVersion, .chdir "/app"] :=
  ((launch_correct (fun _ => none) (fun s => s) "/venv" (some "/venv") [3, 6, 4]
      [.int 3, .int 6, .int 4] "/app" "/venv/bin/lore" ["lore"]).1
    (by decide)).1 (by decide)

/-- The import-time while loop of src/lore/env.py locating ROOT: reads
runtime.txt of the current candidate, stops there when it yields a
truthy version, and otherwise moves to the parent directory, falling
back to the working directory once the parent contains exactly one
path separator.  The result carries ROOT and the final PYTHON_VERSION.
Fuel bounds the iteration count; the caller passes more fuel than an
absolute path can consume. -/
def rootLoop (fs : FS) (cwd : String) : Nat → String → String × Option String
  | 0, _ => (cwd, none)
  | fuel + 1, root =>
    let v := read_version fs (joinPath root "runtime.txt")
    if truthy v then (root, v)
    else
      let parent := dirname root
      if countSep parent = 1 then (cwd, v)
      else rootLoop fs cwd fuel parent

/-- The import-time computation of ROOT and PYTHON_VERSION from lines
380 to 397 of src/lore/env.py: LORE_ROOT wins when truthy, an already
truthy LORE_PYTHON_VERSION suppresses the directory walk, and
otherwise the walk starts at the working directory. -/
def importRootPV (fs : FS) (loreRoot lorePyVer : Option String) (cwd : String) :
    String × Option String :=
  if truthy loreRoot then
    let r := loreRoot.getD ""
    if truthy lorePyVer then (r, lorePyVer)
    else (r, read_version fs (joinPath r "runtime.txt"))
  else if truthy lorePyVer then (cwd, lorePyVer)
  else rootLoop fs cwd (cwd.length + 1) cwd

/-- Whether the runtime.txt of a directory yields a truthy version. -/
def hasVersionAt (fs : FS) (d : String) : Bool :=
  truthy (read_version fs (joinPath d "runtime.txt"))

/-- The successive parent directories the spec describes as examined:
parents are listed until one contains exactly one path separator, so
the top one or two levels of the filesystem never appear. -/
def ancestorChain : Nat → String → List String
  | 0, _ => []
  | fuel + 1, d =>
    let p := dirname d
    if countSep p = 1 then [] else p :: ancestorChain fuel p

/-- The root the spec sentence describes: the first directory among
the working directory and its examined ancestors whose runtime.txt
yields a version, defaulting to the working directory. -/
def specRoot (fs : FS) (cwd : String) : String :=
  ((cwd :: ancestorChain cwd.length cwd).find? (hasVersionAt fs)).getD cwd

/-- One-step unfolding of the loop. -/
theorem rootLoop_succ (fs : FS) (cwd : String) (fuel : Nat) (root : String) :
    rootLoop fs cwd (fuel + 1) root =
      if truthy (read_version fs (joinPath root "runtime.txt")) then
        (root, read_version fs (joinPath root "runtime.txt"))
      else if countSep (dirname root) = 1 then
        (cwd, read_version fs (joinPath root "runtime.txt"))
      else rootLoop fs cwd fuel (dirname root) := rfl

/-- The source loop refines the spec search: the ROOT component of the
loop is the first directory with a version among the candidate and its
examined ancestors, defaulting to the working directory. -/
theorem rootLoop_eq_find (fs : FS) (cwd : String) :
    ∀ fuel root, (rootLoop fs cwd (fuel + 1) root).1 =
      ((root :: ancestorChain fuel root).find? (hasVersionAt fs)).getD cwd := by
  intro fuel
  induction fuel with
  | zero =>
    intro root
    rw [rootLoop_succ]
    by_cases hv : truthy (read_version fs (joinPath root "runtime.txt")) = true
    · simp [ancestorChain, hasVersionAt, hv, List.find?]
    · have hv0 : truthy (read_version fs (joinPath root "runtime.txt")) = false := by
        revert hv
        cases truthy (read_version fs (joinPath root "runtime.txt")) <;> simp
      by_cases hp : countSep (dirname root) = 1
      · simp [ancestorChain, hasVersionAt, hv0, hp, List.find?]
      · simp [rootLoop, ancestorChain, hasVersionAt, hv0, hp, List.find?]
  | succ n ih =>
    intro root
    rw [rootLoop_succ]
    by_cases hv : truthy (read_version fs (joinPath root "runtime.txt")) = true
    · simp [ancestorChain, hasVersionAt, hv, List.find?]
    · have hv0 : truthy (read_version fs (joinPath root "runtime.txt")) = false := by
        revert hv
        cases truthy (read_version fs (joinPath root "runtime.txt")) <;> simp
      by_cases hp : countSep (dirname root) = 1
      · simp [ancestorChain, hasVersionAt, hv0, hp, List.find?]
      · rw [if_neg hv, if_neg hp, ih (dirname root)]
        have hchain : ancestorChain (n + 1) root =
            dirname root :: ancestorChain n (dirname root) := by
          simp [ancestorChain, hp]
        rw [hchain]
        simp [List.find?, hasVersionAt, hv0]

/-- Counterexample to C3 as stated: with LORE_ROOT unset but
LORE_PYTHON_VERSION set, the code never walks the parents, so ROOT is
the working directory even though a parent holds a runtime.txt that
yields a version and the spec search would stop there. -/
theorem root_claim_counterexample :
    (importRootPV (fun p => if p = "/a/b/runtime.txt" then some "3.6.4" else none)
      none (some "3.6.4") "/a/b/c").1 = "/a/b/c" ∧
    specRoot (fun p => if p = "/a/b/runtime.txt" then some "3.6.4" else none)
      "/a/b/c" = "/a/b" ∧
    ("/a/b/c" : String) ≠ "/a/b" := by
  exact ⟨by decide, by decide, by decide⟩

/-- C3 (amended): at import time, ROOT is the value of LORE_ROOT when
that variable is truthy; otherwise, when LORE_PYTHON_VERSION is truthy
ROOT is the current working directory with no directory walk; and only
when both are falsy does ROOT come from the walk, which stops at the
first directory among the working directory and its examined ancestors
whose runtime.txt yields a version and falls back to the working
directory once the parent path contains exactly one separator, so the
top one or two filesystem levels are never examined. -/
theorem root_correct (fs : FS) (loreRoot lorePyVer : Option String) (cwd : String) :
    (truthy loreRoot = true →
      (importRootPV fs loreRoot lorePyVer cwd).1 = loreRoot.getD "") ∧
    (truthy loreRoot = false → truthy lorePyVer = true →
      (importRootPV fs loreRoot lorePyVer cwd).1 = cwd) ∧
    (truthy loreRoot = false → truthy lorePyVer = false →
      (importRootPV fs loreRoot lorePyVer cwd).1 = specRoot fs cwd) := by
  refine ⟨?_, ?_, ?_⟩
  · intro h
    by_cases hpv : truthy lorePyVer = true
    · simp [importRootPV, h, hpv]
    · simp [importRootPV, h, hpv]
  · intro h hpv
    simp [importRootPV, h, hpv]
  · intro h hpv
    simp only [importRootPV, h, hpv, Bool.false_eq_true, if_false]
    exact rootLoop_eq_find fs cwd cwd.length cwd

/-- Concrete instantiation of root_correct: with both variables unset
the walk finds the version one level above the working directory. -/
theorem root_correct_witness :
    (importRootPV (fun p => if p = "/a/b/runtime.txt" then some "3.6.4" else none)
      none none "/a/b/c").1 =
      specRoot (fun p => if p = "/a/b/runtime.txt" then some "3.6.4" else none) "/a/b/c" :=
  (root_correct (fun p => if p = "/a/b/runtime.txt" then some "3.6.4" else none)
    none none "/a/b/c").2.2 rfl rfl

/-- C10: read_version returns None when the file is absent but the
empty string when the file exists with only whitespace; hence with a
truthy LORE_ROOT, an unset LORE_PYTHON_VERSION and an empty
runtime.txt, PYTHON_VERSION becomes the empty string and exists()
still reports true. -/
theorem read_version_correct (fs : FS) (path cwd : String) :
    (fs path = none → read_version fs path = none) ∧
    (∀ c, fs path = some c → pyStrip c = "" → read_version fs path = some "") ∧
    (∀ r c, r ≠ "" → fs (joinPath r "runtime.txt") = some c → pyStrip c = "" →
      (importRootPV fs (some r) none cwd).2 = some "" ∧
      envExists (importRootPV fs (some r) none cwd).2 = true) := by
  refine ⟨?_, ?_, ?_⟩
  · intro h
    simp [read_version, h]
  · intro c hc hs
    simp [read_version, hc, hs]
  · intro r c hr hc hs
    have htr : truthy (some r) = true := by simp [truthy, hr]
    have hread : read_version fs (joinPath r "runtime.txt") = some "" := by
      simp [read_version, hc, hs]
    constructor
    · simp [importRootPV, truthy, hread, hr]
    · simp [importRootPV, truthy, hread, hr, envExists]

/-- Concrete instantiation of read_version_correct: a whitespace-only
runtime.txt under a set LORE_ROOT yields the empty version string and
a positive exists(). -/
theorem read_version_correct_witness :
    (importRootPV (fun p => if p = "/r/runtime.txt" then some "  \n" else none)
      (some "/r") none "/x").2 = some "" ∧
    envExists ((importRootPV (fun p => if p = "/r/runtime.txt" then some "  \n" else none)
      (some "/r") none "/x").2) = true :=
  (read_version_correct (fun p => if p = "/r/runtime.txt" then some "  \n" else none)
    "/r/runtime.txt" "/x").2.2 "/r" "  \n" (by decide) (by decide) (by decide)

end LoreEnv
